import Mathlib

/-!
Verification development for the Gemini Archi Designer repository.

The development shallowly embeds the three source files:
* the Gemini service (geometry normalization via resizeImage, restoration via
  the crop helper, redesignRoom / generateRotatedView request assembly and
  response handling),
* the storage service (loadSessionsFromDB over an IndexedDB-like store),
* App.tsx (the session / history state machine driven by the UI handlers).

Image files are abstracted to opaque handles; pixel geometry is carried out in
exact rational arithmetic, mirroring the floating-point formulas of the source
at the level of real-number semantics.
-/

namespace ArchiDesigner

/-- Opaque handle standing for a JS File / image payload. -/
abbrev ImgFile := Nat

/-! ## Geometry: resizeImage (normalize) and the crop helper (restore)

Both source functions compute the content rectangle of a `w x h` image scaled
to fit a `S x S` square, with the same branch on `aspectRatio = w / h > 1`.
-/

/-- Content dimensions computed by resizeImage (src/unnamed/part_000, lines
84-94): `aspectRatio = img.width / img.height`; landscape gives
`(S, S / aspectRatio)`, portrait or square gives `(S * aspectRatio, S)`. -/
def resizeContentDims (w h S : ℚ) : ℚ × ℚ :=
  if 1 < w / h then (S, S / (w / h)) else (S * (w / h), S)

/-- Top-left position at which resizeImage centers the scaled content on the
square canvas (lines 96-98): `((S - newWidth) / 2, (S - newHeight) / 2)`. -/
def resizeContentPos (w h S : ℚ) : ℚ × ℚ :=
  ((S - (resizeContentDims w h S).1) / 2, (S - (resizeContentDims w h S).2) / 2)

/-- Content dimensions recomputed by the crop helper (src/unnamed/part_000,
lines 20-29) from the original width/height and the square edge; identical
formulas to resizeImage. -/
def cropContentDims (w h S : ℚ) : ℚ × ℚ :=
  if 1 < w / h then (S, S / (w / h)) else (S * (w / h), S)

/-- Top-left offset of the rectangle the crop helper extracts from the square
image (lines 31-33). -/
def cropContentPos (w h S : ℚ) : ℚ × ℚ :=
  ((S - (cropContentDims w h S).1) / 2, (S - (cropContentDims w h S).2) / 2)

/-- Pixel dimensions of the canvas the crop helper returns (lines 36-38): the
canvas is sized to the recomputed content dimensions. -/
def cropCanvasDims (w h S : ℚ) : ℚ × ℚ :=
  cropContentDims w h S

/-! ## Edit request assembly: redesignRoom -/

/-- Which input a request image part embeds. The inline payloads themselves are
abstracted to their source role. -/
inductive ImgSrc where
  | primary
  | product
  | background
  deriving DecidableEq

/-- Instruction blocks concatenated into the redesign prompt, in the order the
source appends them. The literal prompt strings are abstracted to block
identifiers. -/
inductive Block where
  | baseEdit
  | sketchOnly
  | productPlacement
  | backgroundComposition
  | finalOutput
  deriving DecidableEq

/-- One element of the `parts` array sent to the model. -/
inductive ReqPart where
  | image (src : ImgSrc)
  | text (blocks : List Block)
  deriving DecidableEq

/-- Request assembly of redesignRoom (src/unnamed/part_000, lines 183-253):
`parts` starts with the resized primary image; the prompt starts with the base
edit block; the sketch block is appended iff `isSketched`; a supplied product
image appends its image part and the product placement block; a supplied
background image then appends its image part and the background composition
block; finally the output-requirements block is appended and the whole prompt
is pushed as the last part. -/
def redesignRoomParts (productImage : Option ImgFile) (backgroundImage : Option ImgFile)
    (isSketched : Bool) : List ReqPart :=
  let parts0 : List ReqPart := [ReqPart.image ImgSrc.primary]
  let prompt1 : List Block :=
    if isSketched then [Block.baseEdit, Block.sketchOnly] else [Block.baseEdit]
  let parts1 := if productImage.isSome then parts0 ++ [ReqPart.image ImgSrc.product] else parts0
  let prompt2 := if productImage.isSome then prompt1 ++ [Block.productPlacement] else prompt1
  let parts2 :=
    if backgroundImage.isSome then parts1 ++ [ReqPart.image ImgSrc.background] else parts1
  let prompt3 :=
    if backgroundImage.isSome then prompt2 ++ [Block.backgroundComposition] else prompt2
  parts2 ++ [ReqPart.text (prompt3 ++ [Block.finalOutput])]

/-- The sources of the image parts of a request, in order. -/
def imageSources (parts : List ReqPart) : List ImgSrc :=
  parts.foldr
    (fun p acc =>
      match p with
      | ReqPart.image src => src :: acc
      | ReqPart.text _ => acc)
    []

/-- All instruction blocks occurring in text parts of a request, in order. -/
def textBlocks (parts : List ReqPart) : List Block :=
  parts.foldr
    (fun p acc =>
      match p with
      | ReqPart.text bs => bs ++ acc
      | ReqPart.image _ => acc)
    []

/-! ## Model response handling -/

/-- Inline image payload of a response part. -/
structure InlineData where
  mimeType : String
  data : String
  deriving DecidableEq

/-- One content part of a model response; a part may carry inline image data
and/or text. -/
structure ResponsePart where
  inlineData : Option InlineData
  text : Option String
  deriving DecidableEq

/-- A model response, reduced to `candidates[0].content.parts`; `none` stands
for a response with no candidates, content, or parts array. -/
abbrev ModelResponse := Option (List ResponsePart)

/-- The part lookup shared by redesignRoom (line 267) and generateRotatedView
(line 344): `response.candidates[0].content.parts.find(part => part.inlineData)`,
with every optional-chaining step collapsed into the `none` case. -/
def findImagePartFromResponse (response : ModelResponse) : Option ResponsePart :=
  match response with
  | none => none
  | some parts => parts.find? (fun part => part.inlineData.isSome)

/-- Response processing of redesignRoom (src/unnamed/part_000, lines 267-288):
on an inline-image part, the square image is cropped back via the crop helper
with `MAX_DIMENSION = 1024`, and the result (tracked here by its pixel
dimensions) is returned; otherwise the no-image error is thrown. -/
def redesignRoomResult (response : ModelResponse) (originalWidth originalHeight : ℚ) :
    Except String (ℚ × ℚ) :=
  match findImagePartFromResponse response with
  | some _ => Except.ok (cropCanvasDims originalWidth originalHeight 1024)
  | none => Except.error "The AI model did not return an image. Please try again."

/-- Response processing of generateRotatedView (src/unnamed/part_000, lines
344-360), analogous to redesignRoom but with the rotation error message. -/
def generateRotatedViewResult (response : ModelResponse) (originalWidth originalHeight : ℚ) :
    Except String (ℚ × ℚ) :=
  match findImagePartFromResponse response with
  | some _ => Except.ok (cropCanvasDims originalWidth originalHeight 1024)
  | none => Except.error "The AI model did not return an image for rotation."

/-! ## Data model of App.tsx and the storage service -/

/-- Natural pixel dimensions of an uploaded image, as returned by
getImageDimensions. -/
structure Dimensions where
  width : Nat
  height : Nat
  deriving DecidableEq

/-- DesignSession from types.ts: id, name, timestamp, thumbnail data URL,
base scene image, its original dimensions, and the generation history. -/
structure DesignSession where
  id : String
  name : String
  timestamp : Int
  thumbnail : String
  sceneImage : ImgFile
  originalDimensions : Dimensions
  generations : List ImgFile
  deriving DecidableEq

/-- Stable insertion of a session into a timestamp-descending list, used to
model the stable `sort((a, b) => b.timestamp - a.timestamp)` of
loadSessionsFromDB. -/
def insertByTimestamp (x : DesignSession) : List DesignSession → List DesignSession
  | [] => [x]
  | y :: ys => if x.timestamp ≤ y.timestamp then y :: insertByTimestamp x ys else x :: y :: ys

/-- Sessions sorted newest-first by timestamp. -/
def sortByTimestampDesc (l : List DesignSession) : List DesignSession :=
  l.foldr insertByTimestamp []

/-- loadSessionsFromDB (src/unnamed/part_000, lines 428-454). The two fallible
steps are passed in explicitly: `openResult` is the outcome of `await openDB()`
and `getAllResult` the outcome of the `getAll` request. The try/catch wraps the
awaited `openDB()`, so an open failure is caught and the function resolves with
the empty list (after logging). The promise built around the `getAll` request
is returned from the try block without being awaited, so its rejection is not
intercepted by the catch and propagates to the caller. On success the sessions
are sorted newest-first by timestamp. -/
def loadSessionsFromDB (openResult : Except String Unit)
    (getAllResult : Except String (List DesignSession)) :
    Except String (List DesignSession) :=
  match openResult with
  | Except.error _ => Except.ok []
  | Except.ok _ =>
    match getAllResult with
    | Except.error e => Except.error e
    | Except.ok sessions => Except.ok (sortByTimestampDesc sessions)

/-- The React state of App.tsx that the core state machine touches: the session
list, the active session id, the working-state slots, the history stack with
its cursor, the prompt, the captured original dimensions, and the error
banner. -/
structure AppState where
  sessions : List DesignSession
  activeSessionId : Option String
  sceneImage : Option ImgFile
  productImage : Option ImgFile
  backgroundImage : Option ImgFile
  sketchedImage : Option ImgFile
  history : List ImgFile
  historyIndex : Int
  prompt : String
  originalDimensions : Option Dimensions
  error : Option String
  deriving DecidableEq

/-- The initial useState values of App.tsx. -/
def initialState : AppState where
  sessions := []
  activeSessionId := none
  sceneImage := none
  productImage := none
  backgroundImage := none
  sketchedImage := none
  history := []
  historyIndex := -1
  prompt := ""
  originalDimensions := none
  error := none

/-- `history[historyIndex] ?? null` (App.tsx line 89): a negative or
out-of-range index yields `none`. -/
def currentGeneratedImage (s : AppState) : Option ImgFile :=
  if s.historyIndex < 0 then none else s.history.get? s.historyIndex.toNat

/-- `sketchedImage || currentGeneratedImage || sceneImage` (App.tsx line 92). -/
def currentWorkingImage (s : AppState) : Option ImgFile :=
  match s.sketchedImage with
  | some f => some f
  | none =>
    match currentGeneratedImage s with
    | some f => some f
    | none => s.sceneImage

/-- clearWorkingState (App.tsx lines 128-141); sessions and the active id are
untouched. -/
def clearWorkingState (s : AppState) : AppState :=
  { s with
    sceneImage := none
    productImage := none
    backgroundImage := none
    sketchedImage := none
    history := []
    historyIndex := -1
    prompt := ""
    error := none
    originalDimensions := none }

/-- handleNewProject (App.tsx lines 143-146). -/
def handleNewProject (s : AppState) : AppState :=
  { clearWorkingState s with activeSessionId := none }

/-- handleSelectSession (App.tsx lines 148-158): if a session with the id
exists, load its base image, dimensions and generations into the working
state, with the cursor at the last generation. -/
def handleSelectSession (s : AppState) (sessionId : String) : AppState :=
  match s.sessions.find? (fun t => t.id == sessionId) with
  | some session =>
    { clearWorkingState s with
      sceneImage := some session.sceneImage
      originalDimensions := some session.originalDimensions
      history := session.generations
      historyIndex := (session.generations.length : Int) - 1
      activeSessionId := some session.id }
  | none => s

/-- handleDeleteSession (App.tsx lines 160-171): drop the session; if it was
active, select the new front session or clear everything. -/
def handleDeleteSession (s : AppState) (sessionId : String) : AppState :=
  let remaining := s.sessions.filter (fun t => t.id != sessionId)
  let s1 := { s with sessions := remaining }
  if s.activeSessionId = some sessionId then
    match remaining with
    | r :: _ => handleSelectSession s1 r.id
    | [] => handleNewProject s1
  else s1

/-- The startup load effect (App.tsx lines 110-119): install the loaded
sessions and, when any exist, activate the most recent one. -/
def loadSessionsEffect (s : AppState) (loaded : List DesignSession) : AppState :=
  let s1 := { s with sessions := loaded }
  match loaded with
  | first :: _ => handleSelectSession s1 first.id
  | [] => s1

/-- handleSceneImageUpload (App.tsx lines 173-207), success path: the clock
reading `Date.now()` is passed in as `now`. A fresh session with
`id = now.toString()` is prepended, activated, and loaded into the working
state. -/
def handleSceneImageUpload (s : AppState) (file : ImgFile) (dims : Dimensions)
    (thumb : String) (now : Int) : AppState :=
  let newSession : DesignSession :=
    { id := toString now
      name := "Design " ++ toString (s.sessions.length + 1)
      timestamp := now
      thumbnail := thumb
      sceneImage := file
      originalDimensions := dims
      generations := [] }
  { s with
    sessions := newSession :: s.sessions
    activeSessionId := some newSession.id
    sceneImage := some file
    originalDimensions := some dims
    history := []
    historyIndex := -1
    prompt := ""
    sketchedImage := none
    productImage := none
    backgroundImage := none
    error := none }

/-- addImageToHistory (App.tsx lines 227-238): truncate the history to the
cursor (`slice(0, historyIndex + 1)`, with `historyIndex ≥ -1` in every
reachable state), append the new image, move the cursor to the end, and mirror
the new history into the active session record. -/
def addImageToHistory (s : AppState) (newImage : ImgFile) : AppState :=
  let newHistory := s.history.take (s.historyIndex + 1).toNat ++ [newImage]
  { s with
    history := newHistory
    historyIndex := (newHistory.length : Int) - 1
    sessions :=
      match s.activeSessionId with
      | some sid =>
        s.sessions.map fun t =>
          if t.id = sid then { t with generations := newHistory } else t
      | none => s.sessions }

/-- handleGenerate (App.tsx lines 240-279). The outcome of the redesignRoom
call is passed in as `result`. The guard rejects a missing working image, an
empty prompt, or missing dimensions. On success the generated file is appended
to the history and the sketch, product, background and prompt slots are
cleared; on failure only the error banner is set. -/
def handleGenerate (s : AppState) (result : Except String ImgFile) : AppState :=
  if currentWorkingImage s = none ∨ s.prompt = "" ∨ s.originalDimensions = none then
    { s with error := some "Please upload an image of your property and provide a design prompt." }
  else
    match result with
    | Except.ok img =>
      { addImageToHistory s img with
        sketchedImage := none
        productImage := none
        backgroundImage := none
        prompt := ""
        error := none }
    | Except.error e =>
      { s with error := some ("Failed to generate the image. " ++ e) }

/-- handleRotateView (App.tsx lines 281-307). The outcome of the
generateRotatedView call is passed in as `result`. On success the rotated file
is appended to the history; no other working-state slot is touched. -/
def handleRotateView (s : AppState) (result : Except String ImgFile) : AppState :=
  if currentWorkingImage s = none ∨ s.originalDimensions = none then
    { s with error := some "An image must be present to create a rotated view." }
  else
    match result with
    | Except.ok img => addImageToHistory s img
    | Except.error e =>
      { s with error := some ("Failed to generate the rotated view. " ++ e) }

/-- handleRevertToOriginal (App.tsx lines 309-318): clear history, cursor and
sketch, and empty the active session's generations. -/
def handleRevertToOriginal (s : AppState) : AppState :=
  { s with
    history := []
    historyIndex := -1
    sketchedImage := none
    sessions :=
      match s.activeSessionId with
      | some sid =>
        s.sessions.map fun t => if t.id = sid then { t with generations := [] } else t
      | none => s.sessions }

/-- handleSaveCanvasEdit (App.tsx lines 326-355). The outcome of
getImageDimensions is passed in as `dimsResult`. On success the edited file
becomes the new base image with its new dimensions, the sketch is cleared, the
history is reset, and the active session record gets the new base, dimensions
and empty generations; on failure only the error banner is set. -/
def handleSaveCanvasEdit (s : AppState) (newFile : ImgFile)
    (dimsResult : Except String Dimensions) : AppState :=
  match dimsResult with
  | Except.error _ => { s with error := some "Failed to process edited image." }
  | Except.ok dims =>
    { s with
      sceneImage := some newFile
      originalDimensions := some dims
      sketchedImage := none
      history := []
      historyIndex := -1
      sessions :=
        match s.activeSessionId with
        | some sid =>
          s.sessions.map fun t =>
            if t.id = sid then
              { t with sceneImage := newFile, originalDimensions := dims, generations := [] }
            else t
        | none => s.sessions }

/-- handleUndo (App.tsx line 367): `historyIndex >= 0 && setHistoryIndex(historyIndex - 1)`. -/
def handleUndo (s : AppState) : AppState :=
  if 0 ≤ s.historyIndex then { s with historyIndex := s.historyIndex - 1 } else s

/-- handleRedo (App.tsx line 368):
`historyIndex < history.length - 1 && setHistoryIndex(historyIndex + 1)`. -/
def handleRedo (s : AppState) : AppState :=
  if s.historyIndex < (s.history.length : Int) - 1 then
    { s with historyIndex := s.historyIndex + 1 }
  else s

/-! ## Events and reachability -/

/-- The user-visible events of App.tsx that drive the modeled state. Fallible
external results (the generative call, dimension reading) are carried inside
the event. -/
inductive AppEvent where
  | loadSessions (loaded : List DesignSession)
  | sceneImageUpload (file : ImgFile) (dims : Dimensions) (thumb : String) (now : Int)
  | generate (result : Except String ImgFile)
  | rotateView (result : Except String ImgFile)
  | undo
  | redo
  | revertToOriginal
  | saveCanvasEdit (newFile : ImgFile) (dimsResult : Except String Dimensions)
  | selectSession (sessionId : String)
  | deleteSession (sessionId : String)
  | newProject
  | saveSketch (file : ImgFile)
  | removeSketch
  | removeProduct
  | removeBackground
  | addCustomProduct (file : ImgFile)
  | addCustomBackground (file : ImgFile)
  | setPrompt (value : String)

/-- One step of the App.tsx state machine, dispatching to the handler of each
event. saveSketch is handleSaveSketch, removeSketch / removeProduct /
removeBackground are the handlers on lines 369-371, addCustomProduct /
addCustomBackground the ones on lines 373-381, setPrompt the prompt input. -/
def step (s : AppState) : AppEvent → AppState
  | AppEvent.loadSessions loaded => loadSessionsEffect s loaded
  | AppEvent.sceneImageUpload file dims thumb now =>
    handleSceneImageUpload s file dims thumb now
  | AppEvent.generate result => handleGenerate s result
  | AppEvent.rotateView result => handleRotateView s result
  | AppEvent.undo => handleUndo s
  | AppEvent.redo => handleRedo s
  | AppEvent.revertToOriginal => handleRevertToOriginal s
  | AppEvent.saveCanvasEdit newFile dimsResult => handleSaveCanvasEdit s newFile dimsResult
  | AppEvent.selectSession sessionId => handleSelectSession s sessionId
  | AppEvent.deleteSession sessionId => handleDeleteSession s sessionId
  | AppEvent.newProject => handleNewProject s
  | AppEvent.saveSketch file => { s with sketchedImage := some file }
  | AppEvent.removeSketch => { s with sketchedImage := none }
  | AppEvent.removeProduct => { s with productImage := none }
  | AppEvent.removeBackground => { s with backgroundImage := none }
  | AppEvent.addCustomProduct file => { s with productImage := some file }
  | AppEvent.addCustomBackground file => { s with backgroundImage := some file }
  | AppEvent.setPrompt value => { s with prompt := value }

/-- States reachable from the initial render by the modeled events. -/
inductive Reachable : AppState → Prop where
  | init : Reachable initialState
  | step {s : AppState} (e : AppEvent) : Reachable s → Reachable (step s e)

/-- The history-cursor bound of the spec: the cursor ranges over
`[-1, history.length - 1]`. -/
def cursorInBounds (s : AppState) : Prop :=
  -1 ≤ s.historyIndex ∧ s.historyIndex ≤ (s.history.length : Int) - 1

/-! ## Concrete states used as witnesses and counterexamples -/

/-- A state with three generated edits and the cursor on the last one. -/
def c2State : AppState :=
  { initialState with
    history := [10, 11, 12]
    historyIndex := 2 }

/-- A state with a scene, a prompt, dimensions and a sketch applied. -/
def c5State : AppState :=
  { initialState with
    sceneImage := some 1
    originalDimensions := some ⟨4, 3⟩
    sketchedImage := some 7
    prompt := "p" }

/-- A state with a scene, dimensions and a sketch applied (no prompt needed
for rotation). -/
def c5RotState : AppState :=
  { initialState with
    sceneImage := some 1
    originalDimensions := some ⟨4, 3⟩
    sketchedImage := some 7 }

/-- The single session of the replace-base witness state. -/
def c6Session : DesignSession where
  id := "5"
  name := "Design 1"
  timestamp := 5
  thumbnail := "t"
  sceneImage := 1
  originalDimensions := ⟨4, 3⟩
  generations := [11]

/-- An active session with one generated edit, loaded into the working state. -/
def c6State : AppState :=
  { initialState with
    sessions := [c6Session]
    activeSessionId := some "5"
    sceneImage := some 1
    originalDimensions := some ⟨4, 3⟩
    history := [11]
    historyIndex := 0 }

/-- A two-entry history with the cursor at the first entry. -/
def c7State : AppState :=
  { initialState with
    history := [20, 21]
    historyIndex := 0 }

/-- A two-entry history with the cursor at the last entry. -/
def c7TopState : AppState :=
  { initialState with
    history := [20, 21]
    historyIndex := 1 }

/-- A state with a product and a background selected, a sketch applied, and
one generated edit. -/
def c10State : AppState :=
  { initialState with
    sceneImage := some 1
    productImage := some 3
    backgroundImage := some 4
    sketchedImage := some 7
    history := [11]
    historyIndex := 0 }

/-! ## Invariant lemmas for the cursor bound -/

theorem cursorInBounds_clearWorkingState (s : AppState) :
    cursorInBounds (clearWorkingState s) := by
  refine ⟨?_, ?_⟩ <;> simp [clearWorkingState]

theorem cursorInBounds_handleNewProject (s : AppState) :
    cursorInBounds (handleNewProject s) := by
  refine ⟨?_, ?_⟩ <;> simp [handleNewProject, clearWorkingState]

theorem cursorInBounds_addImageToHistory (s : AppState) (img : ImgFile) :
    cursorInBounds (addImageToHistory s img) := by
  refine ⟨?_, ?_⟩ <;> simp [addImageToHistory] <;> omega

theorem cursorInBounds_handleSelectSession (s : AppState) (sessionId : String)
    (h : cursorInBounds s) : cursorInBounds (handleSelectSession s sessionId) := by
  unfold handleSelectSession
  cases hf : s.sessions.find? (fun t => t.id == sessionId) with
  | none => exact h
  | some session => refine ⟨?_, ?_⟩ <;> simp [clearWorkingState]

theorem cursorInBounds_handleDeleteSession (s : AppState) (sessionId : String)
    (h : cursorInBounds s) : cursorInBounds (handleDeleteSession s sessionId) := by
  simp only [handleDeleteSession]
  by_cases hact : s.activeSessionId = some sessionId
  · rw [if_pos hact]
    cases hrem : s.sessions.filter (fun t => t.id != sessionId) with
    | nil => exact cursorInBounds_handleNewProject _
    | cons r rest => exact cursorInBounds_handleSelectSession _ _ h
  · rw [if_neg hact]
    exact h

theorem cursorInBounds_step (s : AppState) (e : AppEvent) (h : cursorInBounds s) :
    cursorInBounds (step s e) := by
  obtain ⟨h1, h2⟩ := h
  cases e with
  | loadSessions loaded =>
    simp only [step, loadSessionsEffect]
    cases loaded with
    | nil => exact ⟨h1, h2⟩
    | cons first rest => exact cursorInBounds_handleSelectSession _ _ ⟨h1, h2⟩
  | sceneImageUpload file dims thumb now =>
    refine ⟨?_, ?_⟩ <;> simp [step, handleSceneImageUpload]
  | generate result =>
    simp only [step, handleGenerate]
    by_cases hg : currentWorkingImage s = none ∨ s.prompt = "" ∨ s.originalDimensions = none
    · rw [if_pos hg]; exact ⟨h1, h2⟩
    · rw [if_neg hg]
      cases result with
      | ok img =>
        have hadd := cursorInBounds_addImageToHistory s img
        exact ⟨hadd.1, hadd.2⟩
      | error e => exact ⟨h1, h2⟩
  | rotateView result =>
    simp only [step, handleRotateView]
    by_cases hg : currentWorkingImage s = none ∨ s.originalDimensions = none
    · rw [if_pos hg]; exact ⟨h1, h2⟩
    · rw [if_neg hg]
      cases result with
      | ok img => exact cursorInBounds_addImageToHistory s img
      | error e => exact ⟨h1, h2⟩
  | undo =>
    simp only [step, handleUndo]
    by_cases h0 : 0 ≤ s.historyIndex
    · rw [if_pos h0]
      exact ⟨show (-1 : Int) ≤ s.historyIndex - 1 by omega,
             show s.historyIndex - 1 ≤ (s.history.length : Int) - 1 by omega⟩
    · rw [if_neg h0]; exact ⟨h1, h2⟩
  | redo =>
    simp only [step, handleRedo]
    by_cases h0 : s.historyIndex < (s.history.length : Int) - 1
    · rw [if_pos h0]
      exact ⟨show (-1 : Int) ≤ s.historyIndex + 1 by omega,
             show s.historyIndex + 1 ≤ (s.history.length : Int) - 1 by omega⟩
    · rw [if_neg h0]; exact ⟨h1, h2⟩
  | revertToOriginal =>
    refine ⟨?_, ?_⟩ <;> simp [step, handleRevertToOriginal]
  | saveCanvasEdit newFile dimsResult =>
    simp only [step, handleSaveCanvasEdit]
    cases dimsResult with
    | error e => exact ⟨h1, h2⟩
    | ok dims => refine ⟨?_, ?_⟩ <;> simp
  | selectSession sessionId => exact cursorInBounds_handleSelectSession _ _ ⟨h1, h2⟩
  | deleteSession sessionId => exact cursorInBounds_handleDeleteSession _ _ ⟨h1, h2⟩
  | newProject => exact cursorInBounds_handleNewProject _
  | saveSketch file => exact ⟨h1, h2⟩
  | removeSketch => exact ⟨h1, h2⟩
  | removeProduct => exact ⟨h1, h2⟩
  | removeBackground => exact ⟨h1, h2⟩
  | addCustomProduct file => exact ⟨h1, h2⟩
  | addCustomBackground file => exact ⟨h1, h2⟩
  | setPrompt value => exact ⟨h1, h2⟩

/-! ## Claim C1: round-trip geometry -/

/-- C1 (amended). For originals with positive width `w`, height `h` and square
edge `S`, the crop helper extracts exactly the rectangle at which resizeImage
centered the content (same position and size, so no residual padding), and the
restored canvas has dimensions `(w * S / max w h, h * S / max w h)` — the
original aspect ratio at scale `S / max w h`. The dimensions equal `w x h`
exactly when `S = max w h`; for `S > max w h` (the claim allowed any
`S ≥ max(w, h)` with `S = 1024`) the restored image is strictly larger than
the original. -/
theorem c1_roundtrip_geometry (w h S : ℚ) (hw : 0 < w) (hh : 0 < h) (hS : 0 < S) :
    cropContentPos w h S = resizeContentPos w h S ∧
    cropContentDims w h S = resizeContentDims w h S ∧
    cropCanvasDims w h S = (w * (S / max w h), h * (S / max w h)) ∧
    (S = max w h → cropCanvasDims w h S = (w, h)) := by
  have hw0 : w ≠ 0 := ne_of_gt hw
  have hh0 : h ≠ 0 := ne_of_gt hh
  have key : cropCanvasDims w h S = (w * (S / max w h), h * (S / max w h)) := by
    unfold cropCanvasDims cropContentDims
    by_cases hlt : 1 < w / h
    · have hwh : h < w := (one_lt_div hh).mp hlt
      rw [if_pos hlt, max_eq_left hwh.le, Prod.mk.injEq]
      constructor
      · field_simp
      · field_simp
        ring
    · have hwh : w ≤ h := (div_le_one hh).mp (le_of_not_lt hlt)
      rw [if_neg hlt, max_eq_right hwh, Prod.mk.injEq]
      constructor
      · field_simp
        ring
      · field_simp
  refine ⟨rfl, rfl, key, ?_⟩
  intro hSe
  have hmax : max w h ≠ 0 := ne_of_gt (lt_of_lt_of_le hw (le_max_left w h))
  rw [key, hSe, div_self hmax, mul_one, mul_one]

/-- Witness for C1 at the landscape original 2 x 1 with square edge 4. -/
theorem c1_roundtrip_geometry_witness :
    cropContentPos 2 1 4 = resizeContentPos 2 1 4 ∧
    cropContentDims 2 1 4 = resizeContentDims 2 1 4 ∧
    cropCanvasDims 2 1 4 = (2 * (4 / max 2 1), 1 * (4 / max 2 1)) ∧
    ((4 : ℚ) = max 2 1 → cropCanvasDims 2 1 4 = (2, 1)) :=
  c1_roundtrip_geometry 2 1 4 (by norm_num) (by norm_num) (by norm_num)

/-- Counterexample to C1 as stated: a 512 x 512 original with `S = 1024`
satisfies `S ≥ max(w, h)`, yet the restored canvas is 1024 x 1024, not
512 x 512. -/
theorem c1_exact_dims_counterexample :
    max (512 : ℚ) 512 ≤ 1024 ∧ cropCanvasDims 512 512 1024 ≠ (512, 512) := by
  constructor
  · norm_num
  · norm_num [cropCanvasDims, cropContentDims]

/-! ## Claim C2: branch truncation -/

/-- C2. From history `[a, b, c]` with the cursor at 2, two undos put the
cursor at 0, and appending `d` yields history `[a, d]` with cursor 1 — `b` and
`c` are discarded. Moreover after any append the cursor equals
`history.length - 1`. -/
theorem c2_branch_truncation :
    (∀ (a b c d : ImgFile) (s : AppState), s.history = [a, b, c] → s.historyIndex = 2 →
      (handleUndo (handleUndo s)).historyIndex = 0 ∧
      (addImageToHistory (handleUndo (handleUndo s)) d).history = [a, d] ∧
      (addImageToHistory (handleUndo (handleUndo s)) d).historyIndex = 1) ∧
    (∀ (s : AppState) (img : ImgFile),
      (addImageToHistory s img).historyIndex =
        ((addImageToHistory s img).history.length : Int) - 1) := by
  constructor
  · intro a b c d s hh hi
    have hu1 : handleUndo s = { s with historyIndex := 1 } := by
      unfold handleUndo
      rw [hi]
      norm_num
    have hu2 : handleUndo { s with historyIndex := 1 } = { s with historyIndex := 0 } := by
      unfold handleUndo
      norm_num
    rw [hu1, hu2]
    refine ⟨rfl, ?_, ?_⟩
    · simp [addImageToHistory, hh]
    · simp [addImageToHistory, hh]
  · intro s img
    simp [addImageToHistory]

/-- Witness for C2 at history `[10, 11, 12]`, cursor 2, new edit 13. -/
theorem c2_branch_truncation_witness :
    ((handleUndo (handleUndo c2State)).historyIndex = 0 ∧
      (addImageToHistory (handleUndo (handleUndo c2State)) 13).history = [10, 13] ∧
      (addImageToHistory (handleUndo (handleUndo c2State)) 13).historyIndex = 1) ∧
    (addImageToHistory initialState 5).historyIndex =
      ((addImageToHistory initialState 5).history.length : Int) - 1 :=
  ⟨c2_branch_truncation.1 10 11 12 13 c2State rfl rfl,
   c2_branch_truncation.2 initialState 5⟩

/-! ## Claim C3: conditional prompt composition -/

/-- C3. A sketched redesign with neither product nor background has exactly
one image part and its text contains the sketch block; a redesign with both a
product and a background has exactly the three image parts
[primary, product, background] in order, the text part last, and the text
contains both the product placement and background composition blocks. -/
theorem c3_prompt_composition (p b : ImgFile) (sk : Bool) :
    redesignRoomParts none none true =
      [ReqPart.image ImgSrc.primary,
       ReqPart.text [Block.baseEdit, Block.sketchOnly, Block.finalOutput]] ∧
    (imageSources (redesignRoomParts none none true)).length = 1 ∧
    Block.sketchOnly ∈ textBlocks (redesignRoomParts none none true) ∧
    redesignRoomParts (some p) (some b) sk =
      [ReqPart.image ImgSrc.primary, ReqPart.image ImgSrc.product,
       ReqPart.image ImgSrc.background,
       ReqPart.text ((if sk then [Block.baseEdit, Block.sketchOnly] else [Block.baseEdit]) ++
         [Block.productPlacement, Block.backgroundComposition, Block.finalOutput])] ∧
    imageSources (redesignRoomParts (some p) (some b) sk) =
      [ImgSrc.primary, ImgSrc.product, ImgSrc.background] ∧
    (redesignRoomParts (some p) (some b) sk).getLast? =
      some (ReqPart.text
        ((if sk then [Block.baseEdit, Block.sketchOnly] else [Block.baseEdit]) ++
          [Block.productPlacement, Block.backgroundComposition, Block.finalOutput])) ∧
    Block.productPlacement ∈ textBlocks (redesignRoomParts (some p) (some b) sk) ∧
    Block.backgroundComposition ∈ textBlocks (redesignRoomParts (some p) (some b) sk) := by
  cases sk <;> simp [redesignRoomParts, imageSources, textBlocks]

/-! ## Claim C4: no-image failure -/

/-- C4. If the model response carries no inline-image part, redesignRoom and
generateRotatedView both fail with their no-image errors, and a failed
generate or rotate leaves the history, the cursor and the session list
unchanged. -/
theorem c4_no_image_failure (response : ModelResponse) (w h : ℚ)
    (hnone : ∀ parts, response = some parts → ∀ part ∈ parts, part.inlineData = none) :
    redesignRoomResult response w h =
      Except.error "The AI model did not return an image. Please try again." ∧
    generateRotatedViewResult response w h =
      Except.error "The AI model did not return an image for rotation." ∧
    (∀ (s : AppState) (e : String),
      (handleGenerate s (Except.error e)).history = s.history ∧
      (handleGenerate s (Except.error e)).historyIndex = s.historyIndex ∧
      (handleGenerate s (Except.error e)).sessions = s.sessions) ∧
    (∀ (s : AppState) (e : String),
      (handleRotateView s (Except.error e)).history = s.history ∧
      (handleRotateView s (Except.error e)).historyIndex = s.historyIndex ∧
      (handleRotateView s (Except.error e)).sessions = s.sessions) := by
  have hfind : findImagePartFromResponse response = none := by
    unfold findImagePartFromResponse
    cases response with
    | none => rfl
    | some parts =>
      rw [List.find?_eq_none]
      intro part hp
      simp [hnone parts rfl part hp]
  refine ⟨?_, ?_, ?_, ?_⟩
  · unfold redesignRoomResult
    rw [hfind]
  · unfold generateRotatedViewResult
    rw [hfind]
  · intro s e
    unfold handleGenerate
    by_cases hg : currentWorkingImage s = none ∨ s.prompt = "" ∨ s.originalDimensions = none
    · rw [if_pos hg]; exact ⟨rfl, rfl, rfl⟩
    · rw [if_neg hg]; exact ⟨rfl, rfl, rfl⟩
  · intro s e
    unfold handleRotateView
    by_cases hg : currentWorkingImage s = none ∨ s.originalDimensions = none
    · rw [if_pos hg]; exact ⟨rfl, rfl, rfl⟩
    · rw [if_neg hg]; exact ⟨rfl, rfl, rfl⟩

/-- Witness for C4 at the empty response. -/
theorem c4_no_image_failure_witness :
    redesignRoomResult none 2 1 =
      Except.error "The AI model did not return an image. Please try again." ∧
    generateRotatedViewResult none 2 1 =
      Except.error "The AI model did not return an image for rotation." ∧
    (∀ (s : AppState) (e : String),
      (handleGenerate s (Except.error e)).history = s.history ∧
      (handleGenerate s (Except.error e)).historyIndex = s.historyIndex ∧
      (handleGenerate s (Except.error e)).sessions = s.sessions) ∧
    (∀ (s : AppState) (e : String),
      (handleRotateView s (Except.error e)).history = s.history ∧
      (handleRotateView s (Except.error e)).historyIndex = s.historyIndex ∧
      (handleRotateView s (Except.error e)).sessions = s.sessions) :=
  c4_no_image_failure none 2 1 (fun parts hp => nomatch hp)

/-! ## Claim C5: overlay clearing after successful generation -/

/-- C5 (amended). A successful redesign (handleGenerate) clears the sketch
overlay; a successful rotation (handleRotateView) appends to the history but
leaves the sketch overlay exactly as it was — the code only clears the
overlay in the redesign path. -/
theorem c5_overlay_cleared (s : AppState) (img : ImgFile)
    (hgen : ¬(currentWorkingImage s = none ∨ s.prompt = "" ∨ s.originalDimensions = none))
    (hrot : ¬(currentWorkingImage s = none ∨ s.originalDimensions = none)) :
    (handleGenerate s (Except.ok img)).sketchedImage = none ∧
    (handleGenerate s (Except.ok img)).history =
      s.history.take (s.historyIndex + 1).toNat ++ [img] ∧
    (handleRotateView s (Except.ok img)).sketchedImage = s.sketchedImage ∧
    (handleRotateView s (Except.ok img)).history =
      s.history.take (s.historyIndex + 1).toNat ++ [img] := by
  refine ⟨?_, ?_, ?_, ?_⟩
  · unfold handleGenerate
    rw [if_neg hgen]
  · unfold handleGenerate
    rw [if_neg hgen]
    simp [addImageToHistory]
  · unfold handleRotateView
    rw [if_neg hrot]
    simp [addImageToHistory]
  · unfold handleRotateView
    rw [if_neg hrot]
    simp [addImageToHistory]

/-- Witness for C5 at a state with a sketch applied. -/
theorem c5_overlay_cleared_witness :
    (handleGenerate c5State (Except.ok 9)).sketchedImage = none ∧
    (handleGenerate c5State (Except.ok 9)).history =
      c5State.history.take (c5State.historyIndex + 1).toNat ++ [9] ∧
    (handleRotateView c5State (Except.ok 9)).sketchedImage = c5State.sketchedImage ∧
    (handleRotateView c5State (Except.ok 9)).history =
      c5State.history.take (c5State.historyIndex + 1).toNat ++ [9] :=
  c5_overlay_cleared c5State 9 (by decide) (by decide)

/-- Counterexample to C5 as stated: after a successful rotation (the rotated
file 9 is appended to the history), the sketch overlay is still present. -/
theorem c5_overlay_counterexample :
    (handleRotateView c5RotState (Except.ok 9)).history = [9] ∧
    (handleRotateView c5RotState (Except.ok 9)).sketchedImage = some 7 := by
  decide

/-! ## Claim C6: replace-base resets history -/

/-- C6. Replacing the base image via the canvas edit resets the history and
cursor, installs the new base image and dimensions, clears the sketch
overlay, and rewrites the active session in place: every session keeps its id
and name, the active one gets the new base, new dimensions and empty
generations, and every other session is untouched. -/
theorem c6_replace_base (s : AppState) (aid : String) (newFile : ImgFile) (dims : Dimensions)
    (hactive : s.activeSessionId = some aid) (hne : s.history ≠ []) :
    (handleSaveCanvasEdit s newFile (Except.ok dims)).history = [] ∧
    (handleSaveCanvasEdit s newFile (Except.ok dims)).historyIndex = -1 ∧
    (handleSaveCanvasEdit s newFile (Except.ok dims)).sceneImage = some newFile ∧
    (handleSaveCanvasEdit s newFile (Except.ok dims)).originalDimensions = some dims ∧
    (handleSaveCanvasEdit s newFile (Except.ok dims)).sketchedImage = none ∧
    (handleSaveCanvasEdit s newFile (Except.ok dims)).sessions.map DesignSession.id =
      s.sessions.map DesignSession.id ∧
    (handleSaveCanvasEdit s newFile (Except.ok dims)).sessions.map DesignSession.name =
      s.sessions.map DesignSession.name ∧
    (∀ t ∈ (handleSaveCanvasEdit s newFile (Except.ok dims)).sessions, t.id = aid →
      t.generations = [] ∧ t.sceneImage = newFile ∧ t.originalDimensions = dims) ∧
    (∀ t ∈ (handleSaveCanvasEdit s newFile (Except.ok dims)).sessions, t.id ≠ aid →
      t ∈ s.sessions) := by
  have hsess : (handleSaveCanvasEdit s newFile (Except.ok dims)).sessions =
      s.sessions.map (fun t =>
        if t.id = aid then
          { t with sceneImage := newFile, originalDimensions := dims, generations := [] }
        else t) := by
    simp [handleSaveCanvasEdit, hactive]
  refine ⟨rfl, rfl, rfl, rfl, rfl, ?_, ?_, ?_, ?_⟩
  · rw [hsess, List.map_map]
    apply List.map_congr_left
    intro t ht
    by_cases hid : t.id = aid <;> simp [hid]
  · rw [hsess, List.map_map]
    apply List.map_congr_left
    intro t ht
    by_cases hid : t.id = aid <;> simp [hid]
  · rw [hsess]
    intro t ht hid
    rw [List.mem_map] at ht
    obtain ⟨u, hu, rfl⟩ := ht
    by_cases h : u.id = aid
    · simp [h]
    · rw [if_neg h] at hid
      exact absurd hid h
  · rw [hsess]
    intro t ht hid
    rw [List.mem_map] at ht
    obtain ⟨u, hu, rfl⟩ := ht
    by_cases h : u.id = aid
    · rw [if_pos h] at hid
      exact absurd h hid
    · rw [if_neg h]
      exact hu

/-- Witness for C6 at a session with one generated edit. -/
theorem c6_replace_base_witness :
    (handleSaveCanvasEdit c6State 2 (Except.ok ⟨8, 6⟩)).history = [] ∧
    (handleSaveCanvasEdit c6State 2 (Except.ok ⟨8, 6⟩)).historyIndex = -1 ∧
    (handleSaveCanvasEdit c6State 2 (Except.ok ⟨8, 6⟩)).sceneImage = some 2 ∧
    (handleSaveCanvasEdit c6State 2 (Except.ok ⟨8, 6⟩)).originalDimensions = some ⟨8, 6⟩ ∧
    (handleSaveCanvasEdit c6State 2 (Except.ok ⟨8, 6⟩)).sketchedImage = none ∧
    (handleSaveCanvasEdit c6State 2 (Except.ok ⟨8, 6⟩)).sessions.map DesignSession.id =
      c6State.sessions.map DesignSession.id ∧
    (handleSaveCanvasEdit c6State 2 (Except.ok ⟨8, 6⟩)).sessions.map DesignSession.name =
      c6State.sessions.map DesignSession.name ∧
    (∀ t ∈ (handleSaveCanvasEdit c6State 2 (Except.ok ⟨8, 6⟩)).sessions, t.id = "5" →
      t.generations = [] ∧ t.sceneImage = 2 ∧ t.originalDimensions = ⟨8, 6⟩) ∧
    (∀ t ∈ (handleSaveCanvasEdit c6State 2 (Except.ok ⟨8, 6⟩)).sessions, t.id ≠ "5" →
      t ∈ c6State.sessions) :=
  c6_replace_base c6State "5" 2 ⟨8, 6⟩ rfl (by decide)

/-! ## Claim C7: cursor bounds -/

/-- C7. In every reachable state the cursor lies in `[-1, history.length - 1]`;
undo at cursor -1 is a no-op and otherwise decrements the cursor leaving the
history unchanged; redo at cursor `history.length - 1` is a no-op and
otherwise (cursor below the end) increments the cursor leaving the history
unchanged. -/
theorem c7_cursor_bounds :
    (∀ s : AppState, Reachable s → cursorInBounds s) ∧
    (∀ s : AppState, s.historyIndex = -1 → handleUndo s = s) ∧
    (∀ s : AppState, 0 ≤ s.historyIndex →
      (handleUndo s).historyIndex = s.historyIndex - 1 ∧ (handleUndo s).history = s.history) ∧
    (∀ s : AppState, s.historyIndex = (s.history.length : Int) - 1 → handleRedo s = s) ∧
    (∀ s : AppState, s.historyIndex < (s.history.length : Int) - 1 →
      (handleRedo s).historyIndex = s.historyIndex + 1 ∧ (handleRedo s).history = s.history) := by
  refine ⟨?_, ?_, ?_, ?_, ?_⟩
  · intro s hr
    induction hr with
    | init => exact ⟨by norm_num [initialState], by norm_num [initialState]⟩
    | step e hr ih => exact cursorInBounds_step _ e ih
  · intro s hi
    unfold handleUndo
    rw [if_neg (by omega)]
  · intro s h0
    unfold handleUndo
    rw [if_pos h0]
    exact ⟨rfl, rfl⟩
  · intro s hi
    unfold handleRedo
    rw [if_neg (by omega)]
  · intro s hlt
    unfold handleRedo
    rw [if_pos hlt]
    exact ⟨rfl, rfl⟩

/-- Witness for C7 at the initial state and a two-entry history. -/
theorem c7_cursor_bounds_witness :
    cursorInBounds initialState ∧
    handleUndo initialState = initialState ∧
    ((handleUndo c7State).historyIndex = c7State.historyIndex - 1 ∧
      (handleUndo c7State).history = c7State.history) ∧
    handleRedo c7TopState = c7TopState ∧
    ((handleRedo c7State).historyIndex = c7State.historyIndex + 1 ∧
      (handleRedo c7State).history = c7State.history) :=
  ⟨c7_cursor_bounds.1 initialState Reachable.init,
   c7_cursor_bounds.2.1 initialState rfl,
   c7_cursor_bounds.2.2.1 c7State (by decide),
   c7_cursor_bounds.2.2.2.1 c7TopState (by decide),
   c7_cursor_bounds.2.2.2.2 c7State (by decide)⟩

/-! ## Claim C8: session id uniqueness -/

/-- C8 (amended). Session ids are `Date.now().toString()`, so a new session's
id is unique across the existing sessions provided its creation timestamp
string differs from every existing id — in particular when all creations
happen at pairwise distinct clock readings. Without that proviso uniqueness
fails (see the counterexample with two uploads in the same millisecond). -/
theorem c8_unique_ids (s : AppState) (file : ImgFile) (dims : Dimensions)
    (thumb : String) (now : Int)
    (hfresh : ∀ t ∈ s.sessions, t.id ≠ toString now)
    (hnodup : (s.sessions.map DesignSession.id).Nodup) :
    ((handleSceneImageUpload s file dims thumb now).sessions.map DesignSession.id).Nodup := by
  have hsess : (handleSceneImageUpload s file dims thumb now).sessions.map DesignSession.id =
      toString now :: s.sessions.map DesignSession.id := by
    simp [handleSceneImageUpload]
  rw [hsess, List.nodup_cons]
  refine ⟨?_, hnodup⟩
  rw [List.mem_map]
  rintro ⟨t, ht, hid⟩
  exact hfresh t ht hid

/-- Witness for C8: a first upload into the empty session list. -/
theorem c8_unique_ids_witness :
    ((handleSceneImageUpload initialState 1 ⟨4, 3⟩ "t" 5).sessions.map DesignSession.id).Nodup :=
  c8_unique_ids initialState 1 ⟨4, 3⟩ "t" 5
    (by intro t ht; simp [initialState] at ht) (by decide)

/-- Counterexample to C8 as stated: two uploads whose `Date.now()` readings
are both 5 produce two sessions with the equal id "5". -/
theorem c8_unique_ids_counterexample :
    (handleSceneImageUpload (handleSceneImageUpload initialState 1 ⟨4, 3⟩ "t1" 5)
        2 ⟨4, 3⟩ "t2" 5).sessions.map DesignSession.id = ["5", "5"] ∧
    ¬ ((handleSceneImageUpload (handleSceneImageUpload initialState 1 ⟨4, 3⟩ "t1" 5)
        2 ⟨4, 3⟩ "t2" 5).sessions.map DesignSession.id).Nodup := by
  constructor
  · decide
  · decide

/-! ## Claim C9: load failures from the durable store -/

/-- C9 (amended). When the store cannot be opened, loadSessionsFromDB catches
the failure and resolves with the empty session list rather than propagating
an error; only a failure of the getAll request after a successful open
propagates to the caller. -/
theorem c9_load_error_swallowed (msg : String) (r : Except String (List DesignSession)) :
    loadSessionsFromDB (Except.error msg) r = Except.ok [] ∧
    loadSessionsFromDB (Except.ok ()) (Except.error msg) = Except.error msg :=
  ⟨rfl, rfl⟩

/-- Counterexample to C9 as stated: with the store unopenable,
loadSessionsFromDB returns a normal empty session list instead of an error. -/
theorem c9_load_error_counterexample :
    loadSessionsFromDB (Except.error "IndexedDB is not supported by this browser.")
      (Except.ok []) = Except.ok [] :=
  rfl

/-! ## Claim C10: revert keeps the product and background selections -/

/-- C10. Revert-to-original clears the history, cursor and sketch overlay but
leaves the product and background selections in place, and the next redesign
request assembled from the post-revert state still carries both the product
and the background image parts. -/
theorem c10_revert_keeps_selections (s : AppState) (p b : ImgFile)
    (hp : s.productImage = some p) (hb : s.backgroundImage = some b) :
    (handleRevertToOriginal s).productImage = some p ∧
    (handleRevertToOriginal s).backgroundImage = some b ∧
    (handleRevertToOriginal s).history = [] ∧
    (handleRevertToOriginal s).historyIndex = -1 ∧
    (handleRevertToOriginal s).sketchedImage = none ∧
    ReqPart.image ImgSrc.product ∈
      redesignRoomParts (handleRevertToOriginal s).productImage
        (handleRevertToOriginal s).backgroundImage
        (handleRevertToOriginal s).sketchedImage.isSome ∧
    ReqPart.image ImgSrc.background ∈
      redesignRoomParts (handleRevertToOriginal s).productImage
        (handleRevertToOriginal s).backgroundImage
        (handleRevertToOriginal s).sketchedImage.isSome := by
  have hp' : (handleRevertToOriginal s).productImage = some p := hp
  have hb' : (handleRevertToOriginal s).backgroundImage = some b := hb
  have hs' : (handleRevertToOriginal s).sketchedImage = none := rfl
  refine ⟨hp', hb', rfl, rfl, hs', ?_, ?_⟩
  · rw [hp', hb', hs']
    simp [redesignRoomParts]
  · rw [hp', hb', hs']
    simp [redesignRoomParts]

/-- Witness for C10 at a state with product 3 and background 4 selected. -/
theorem c10_revert_keeps_selections_witness :
    (handleRevertToOriginal c10State).productImage = some 3 ∧
    (handleRevertToOriginal c10State).backgroundImage = some 4 ∧
    (handleRevertToOriginal c10State).history = [] ∧
    (handleRevertToOriginal c10State).historyIndex = -1 ∧
    (handleRevertToOriginal c10State).sketchedImage = none ∧
    ReqPart.image ImgSrc.product ∈
      redesignRoomParts (handleRevertToOriginal c10State).productImage
        (handleRevertToOriginal c10State).backgroundImage
        (handleRevertToOriginal c10State).sketchedImage.isSome ∧
    ReqPart.image ImgSrc.background ∈
      redesignRoomParts (handleRevertToOriginal c10State).productImage
        (handleRevertToOriginal c10State).backgroundImage
        (handleRevertToOriginal c10State).sketchedImage.isSome :=
  c10_revert_keeps_selections c10State 3 4 rfl rfl

end ArchiDesigner
